import Mathlib

/-!
Verification of the response-normalization and report-formatting core of
YonSeWeather-cli (src/main.py) against its specification.

The JSON payloads the program consumes are modelled by `PyVal`, a tree of
variant leaves; Python `float` values are modelled by exact rationals (every
claim checked here is insensitive to binary64 rounding: the numeric
comparisons involved are bounded integer/short-decimal computations whose
float evaluation agrees with the exact one on the relevant domains, as noted
at each definition).  Python exceptions are modelled by the `Except` monad
with `PyErr` distinguishing the program's own `WeatherError` (constructors
named after its raise sites) from uncaught interpreter errors (`KeyError`,
`TypeError`/`AttributeError`).
-/

namespace YonSe

/-- Variant tree of decoded JSON / Python values (`None`, `bool`, `int`,
`float` as exact rational, `str`, `list`, `dict`). -/
inductive PyVal where
  | vnull : PyVal
  | vbool (b : Bool) : PyVal
  | vint (n : Int) : PyVal
  | vfloat (q : ℚ) : PyVal
  | vstr (s : String) : PyVal
  | vlist (xs : List PyVal) : PyVal
  | vdict (entries : List (String × PyVal)) : PyVal

/-- First value bound to `k`, as a Python `dict` lookup sees it. -/
def dictFind (d : List (String × PyVal)) (k : String) : Option PyVal :=
  match d with
  | [] => none
  | (k', v) :: rest => if k' = k then some v else dictFind rest k

/-- Python `d.get(k, default)` on a dict given as an entry list. -/
def dictGetD (d : List (String × PyVal)) (k : String) (default : PyVal) : PyVal :=
  (dictFind d k).getD default

/-- Python truthiness of a value. -/
def pyTruthy : PyVal → Bool
  | .vnull => false
  | .vbool b => b
  | .vint n => n != 0
  | .vfloat q => q != 0
  | .vstr s => s != ""
  | .vlist xs => !xs.isEmpty
  | .vdict d => !d.isEmpty

/-- The dict payload of a value, when it is one. -/
def asDict : PyVal → Option (List (String × PyVal))
  | .vdict d => some d
  | _ => none

/-- Truncation toward zero of a rational, the effect of Python `int()` on a
numeric value. -/
def ratTrunc (q : ℚ) : Int :=
  if 0 ≤ q then ⌊q⌋ else -⌊-q⌋

/-- Python whitespace stripped by `str.strip()` / numeric-string parsing. -/
def isPySpace (c : Char) : Bool :=
  c = ' ' || c = '\t' || c = '\n' || c = '\r' || c = '\x0b' || c = '\x0c'

/-- Digits of a decimal numeral read as a natural number. -/
def natOfDigits (cs : List Char) : Nat :=
  cs.foldl (fun a c => a * 10 + (c.toNat - 48)) 0

/-- Nonempty all-digit character list read as a natural number. -/
def parseNatDigits (cs : List Char) : Option Nat :=
  if cs.isEmpty then none
  else if cs.all Char.isDigit then some (natOfDigits cs) else none

/-- Leading and trailing Python whitespace removed. -/
def pyStripChars (cs : List Char) : List Char :=
  ((cs.dropWhile isPySpace).reverse.dropWhile isPySpace).reverse

/-- Python `int(s)` on a string: optional sign and decimal digits, surrounded
by optional whitespace (digit-group underscores and non-ASCII digits are out
of scope; no claim involves them). `none` models the `ValueError`. -/
def pyParseInt (s : String) : Option Int :=
  match pyStripChars s.toList with
  | '+' :: rest => (parseNatDigits rest).map (fun n => (n : Int))
  | '-' :: rest => (parseNatDigits rest).map (fun n => -(n : Int))
  | rest => (parseNatDigits rest).map (fun n => (n : Int))

/-- Sign-free decimal literal (`"12"`, `"12.5"`, `"12."`, `".5"`) as an exact
rational. -/
def parseDecimalBody (cs : List Char) : Option ℚ :=
  let intPart := cs.takeWhile (fun c => c != '.')
  match cs.dropWhile (fun c => c != '.') with
  | [] => (parseNatDigits cs).map (fun n => (n : ℚ))
  | '.' :: frac =>
      if frac.contains '.' then none
      else if intPart.isEmpty && frac.isEmpty then none
      else if intPart.all Char.isDigit && frac.all Char.isDigit then
        some ((natOfDigits intPart : ℚ) + (natOfDigits frac : ℚ) / (10 : ℚ) ^ frac.length)
      else none
  | _ => none

/-- Python `float(s)` on a string: optional sign and a decimal literal,
surrounded by optional whitespace (exponent forms and `inf`/`nan` are out of
scope; no claim involves them). `none` models the `ValueError`. -/
def pyParseFloat (s : String) : Option ℚ :=
  match pyStripChars s.toList with
  | '+' :: rest => parseDecimalBody rest
  | '-' :: rest => (parseDecimalBody rest).map (fun q => -q)
  | rest => parseDecimalBody rest

/-- Python `int(value)`: `none` models the `TypeError`/`ValueError` raised on
a value not coercible to `int`. -/
def pyToInt : PyVal → Option Int
  | .vnull => none
  | .vbool b => some (if b then 1 else 0)
  | .vint n => some n
  | .vfloat q => some (ratTrunc q)
  | .vstr s => pyParseInt s
  | .vlist _ => none
  | .vdict _ => none

/-- Python `float(value)`: `none` models the `TypeError`/`ValueError` raised
on a value not coercible to `float`. -/
def pyToFloat : PyVal → Option ℚ
  | .vnull => none
  | .vbool b => some (if b then 1 else 0)
  | .vint n => some (n : ℚ)
  | .vfloat q => some q
  | .vstr s => pyParseFloat s
  | .vlist _ => none
  | .vdict _ => none

/-- The program's own `WeatherError`, split by raise site: the structural
check of `parse_weather_payload` ("Ответ не содержит необходимых данных"),
the missing-key branch of `_required_float`/`_required_int` ("Ответ не
содержит поле ..."), and the failed-coercion branches ("Некорректное
значение ..."). -/
inductive WError where
  | malformedResponse : WError
  | missingField (key : String) : WError
  | invalidValue : WError
deriving DecidableEq, Repr

/-- An exception terminating a call: either the program's `WeatherError` or
an uncaught interpreter error (`KeyError` from a `[...]` subscript on a dict,
`TypeError`/`AttributeError` from using a value at the wrong shape or type). -/
inductive PyErr where
  | weatherError (e : WError) : PyErr
  | keyError (key : String) : PyErr
  | typeError : PyErr
deriving DecidableEq, Repr

/-- `_safe_get(block, key, default)` (src/main.py lines 541-546): the value
under `key` when `block` is a dict, `default` otherwise (the absent container
is `None`, i.e. `vnull`). -/
def safe_get (block : PyVal) (key : String) (default : PyVal := .vnull) : PyVal :=
  match block with
  | .vdict d => dictGetD d key default
  | _ => default

/-- `_optional_int(value)` (lines 549-557): `None` maps to absent, any other
value is coerced with `int(...)`, a failed coercion raising `WeatherError`
(the `InvalidValue` case). -/
def optional_int (value : PyVal) : Except PyErr (Option Int) :=
  match value with
  | .vnull => .ok none
  | v =>
      match pyToInt v with
      | some n => .ok (some n)
      | none => .error (.weatherError .invalidValue)

/-- `_optional_float(value)` (lines 586-594): `None` maps to absent, any
other value is coerced with `float(...)`, a failed coercion raising
`WeatherError` (the `InvalidValue` case). -/
def optional_float (value : PyVal) : Except PyErr (Option ℚ) :=
  match value with
  | .vnull => .ok none
  | v =>
      match pyToFloat v with
      | some q => .ok (some q)
      | none => .error (.weatherError .invalidValue)

/-- `_required_float(block, key)` (lines 560-570). -/
def required_float (block : List (String × PyVal)) (key : String) : Except PyErr ℚ :=
  match dictFind block key with
  | none => .error (.weatherError (.missingField key))
  | some v =>
      match pyToFloat v with
      | some q => .ok q
      | none => .error (.weatherError .invalidValue)

/-- `_required_int(block, key)` (lines 573-583). -/
def required_int (block : List (String × PyVal)) (key : String) : Except PyErr Int :=
  match dictFind block key with
  | none => .error (.weatherError (.missingField key))
  | some v =>
      match pyToInt v with
      | some n => .ok n
      | none => .error (.weatherError .invalidValue)

/-- `_float_with_default(value, default)` (lines 597-601). -/
def float_with_default (value : PyVal) (default : ℚ) : Except PyErr ℚ :=
  match optional_float value with
  | .ok coerced => .ok (coerced.getD default)
  | .error e => .error e

/-- `_int_with_default(value, default)` (lines 604-608). -/
def int_with_default (value : PyVal) (default : Int) : Except PyErr Int :=
  match optional_int value with
  | .ok coerced => .ok (coerced.getD default)
  | .error e => .error e

/-- Leading and trailing whitespace removed, Python `str.strip()`. -/
def pyStrip (s : String) : String :=
  String.mk (pyStripChars s.toList)

/-- Python `str.capitalize()`: first character upper-cased, the rest
lower-cased.  Case mapping is modelled for ASCII (`Char.toUpper`/`toLower`);
the casing of non-ASCII letters plays no part in any claim. -/
def pyCapitalize (s : String) : String :=
  match s.toList with
  | [] => ""
  | c :: rest => String.mk (c.toUpper :: rest.map Char.toLower)

/-- `_format_description(description)` (lines 611-616) on a string argument:
a falsy (empty) description maps to the placeholder, otherwise the string is
stripped and capitalized. -/
def format_description (description : String) : String :=
  if description = "" then "Нет данных"
  else pyCapitalize (pyStrip description)

/-- `_format_description` applied to a raw payload value, as the parsers do:
a falsy value (`None`, `""`, `0`, ...) maps to the placeholder; a truthy
string is stripped and capitalized; a truthy non-string would raise
`AttributeError` at `.strip()`. -/
def format_description_val (description : PyVal) : Except PyErr String :=
  if pyTruthy description = false then .ok "Нет данных"
  else
    match description with
    | .vstr s => .ok (format_description s)
    | _ => .error .typeError

/-- A `datetime` carrying a fixed UTC offset, as `_to_local_time` builds it
(lines 619-624): the absolute instant in Unix seconds together with the
offset of the attached `timezone`.  Two such values render the same local
date and time exactly when they are equal. -/
structure LocalTime where
  utc : Int
  offset : Int
deriving DecidableEq, Repr

/-- `_to_local_time(timestamp, tz)` (lines 619-624) for an offset of
`offset` seconds: `None` stays absent, a timestamp becomes the instant
paired with the offset. -/
def to_local_time (timestamp : Option Int) (offset : Int) : Option LocalTime :=
  match timestamp with
  | none => none
  | some ts => some ⟨ts, offset⟩

/-- `WeatherSnapshot` (src/main.py lines 79-103).  `tz` is the offset of the
`timezone` object in seconds; numeric fields carry the types the dataclass
declares; `air_quality_components` keeps insertion order as a Python dict
does. -/
structure WeatherSnapshot where
  city : String
  country : Option String
  description : String
  temperature : ℚ
  feels_like : ℚ
  pressure : Int
  humidity : Int
  wind_speed : ℚ
  wind_direction : Option Int
  cloudiness : Int
  temperature_min : ℚ
  temperature_max : ℚ
  visibility : Option Int
  sunrise : Option LocalTime
  sunset : Option LocalTime
  tz : Int
  units : String
  uv_index : Option ℚ := none
  air_quality_index : Option Int := none
  air_quality_components : Option (List (String × ℚ)) := none
  weather_alerts : Option (List PyVal) := none

/-- `ForecastItem` (src/main.py lines 106-119). -/
structure ForecastItem where
  timestamp : LocalTime
  temperature : ℚ
  feels_like : ℚ
  description : String
  humidity : Int
  wind_speed : ℚ
  cloudiness : Int
  precipitation_probability : ℚ
  rain_volume : Option ℚ := none
  snow_volume : Option ℚ := none

/-- A leaf stored into an `Optional[int]`-typed slot without coercion
(`sys.country`-like slots use their own helpers): absent or `None` is
absent, an `int` is itself, anything else is modelled as the `TypeError`
Python would raise when the slot is next used at its declared type. -/
def storedOptInt (v : Option PyVal) : Except PyErr (Option Int) :=
  match v with
  | none => .ok none
  | some .vnull => .ok none
  | some (.vint n) => .ok (some n)
  | some _ => .error .typeError

/-- A leaf stored into an `Optional[float]`-typed slot without coercion:
absent or `None` is absent, a number is its exact value, anything else is
modelled as the `TypeError` Python would raise when the slot is next used at
its declared type. -/
def storedOptFloat (v : Option PyVal) : Except PyErr (Option ℚ) :=
  match v with
  | none => .ok none
  | some .vnull => .ok none
  | some (.vint n) => .ok (some (n : ℚ))
  | some (.vfloat q) => .ok (some q)
  | some _ => .error .typeError

/-- A numeric leaf used directly in arithmetic (`item.get("pop", 0.0) * 100`
and such): a number is its exact value, anything else is the `TypeError` of
the arithmetic. -/
def numOfVal (v : PyVal) : Except PyErr ℚ :=
  match v with
  | .vint n => .ok (n : ℚ)
  | .vfloat q => .ok q
  | .vbool b => .ok (if b then 1 else 0)
  | _ => .error .typeError

/-- An integer leaf used where an `int` is stored and immediately consumed
as one. -/
def intOfVal (v : PyVal) : Except PyErr Int :=
  match v with
  | .vint n => .ok n
  | .vbool b => .ok (if b then 1 else 0)
  | _ => .error .typeError

/-- Python `x.get(key, default)` where `x` must be a dict: an
`AttributeError` otherwise. -/
def pyGet (v : PyVal) (key : String) (default : PyVal) : Except PyErr PyVal :=
  match v with
  | .vdict d => .ok (dictGetD d key default)
  | _ => .error .typeError

/-- A dict of numeric leaves (the `components` block stored into the
`Dict[str, float]`-typed slot): entry order kept, a non-numeric leaf
modelled as the `TypeError` raised when it is next formatted. -/
def numDict (v : PyVal) : Except PyErr (List (String × ℚ)) :=
  match v with
  | .vdict d => d.mapM (fun kv => (numOfVal kv.2).map (fun q => (kv.1, q)))
  | _ => .error .typeError

/-- `parse_weather_payload(payload, fallback_city=..., units=...)`
(src/main.py lines 484-538).  The leading `try: payload["main"];
payload["sys"]` raises the one structural `WeatherError` ("Ответ не содержит
необходимых данных", the `MalformedResponse` case) when either key is
absent; afterwards the fields are extracted in source order with the §4.1
coercion helpers.  `timezone`/`sunrise`/`sunset` leaves are modelled at the
integer type the API delivers. -/
def parse_weather_payload (payload : List (String × PyVal)) (fallback_city : String)
    (units : String) : Except PyErr WeatherSnapshot :=
  match dictFind payload "main", dictFind payload "sys" with
  | some mainV, some sysV => do
      let weatherV := dictGetD payload "weather" .vnull
      let descV ← (if pyTruthy weatherV then
          match weatherV with
          | .vlist (w :: _) => pyGet w "description" .vnull
          | _ => Except.error PyErr.typeError
        else pure PyVal.vnull)
      let description ← format_description_val descV
      let timezone_offset ← (match dictFind payload "timezone" with
        | none => pure (0 : Int)
        | some v => intOfVal v)
      let sysD ← (match asDict sysV with
        | some d => pure d
        | none => Except.error PyErr.typeError)
      let sunriseTs ← storedOptInt (dictFind sysD "sunrise")
      let sunsetTs ← storedOptInt (dictFind sysD "sunset")
      let sunrise := to_local_time sunriseTs timezone_offset
      let sunset := to_local_time sunsetTs timezone_offset
      let mainD ← (match asDict mainV with
        | some d => pure d
        | none => Except.error PyErr.typeError)
      let temperature ← required_float mainD "temp"
      let feels_like ← required_float mainD "feels_like"
      let pressure ← required_int mainD "pressure"
      let humidity ← required_int mainD "humidity"
      let windV := dictGetD payload "wind" .vnull
      let wind_speed ← float_with_default (safe_get windV "speed") 0
      let wind_direction ← optional_int (safe_get windV "deg")
      let cloudsV := dictGetD payload "clouds" .vnull
      let cloudiness ← int_with_default (safe_get cloudsV "all") 0
      let temperature_min ← float_with_default ((dictFind mainD "temp_min").getD .vnull) temperature
      let temperature_max ← float_with_default ((dictFind mainD "temp_max").getD .vnull) temperature
      let visibility ← optional_int ((dictFind payload "visibility").getD .vnull)
      let nameV := dictGetD payload "name" .vnull
      let city ← (if pyTruthy nameV then
          match nameV with
          | .vstr s => pure s
          | _ => Except.error PyErr.typeError
        else pure fallback_city)
      let country ← (match dictFind sysD "country" with
        | none => pure (none : Option String)
        | some .vnull => pure none
        | some (.vstr s) => pure (some s)
        | some _ => Except.error PyErr.typeError)
      Except.ok
        { city := city
          country := country
          description := description
          temperature := temperature
          feels_like := feels_like
          pressure := pressure
          humidity := humidity
          wind_speed := wind_speed
          wind_direction := wind_direction
          cloudiness := cloudiness
          temperature_min := temperature_min
          temperature_max := temperature_max
          visibility := visibility
          sunrise := sunrise
          sunset := sunset
          tz := timezone_offset
          units := units }
  | _, _ => .error (.weatherError .malformedResponse)

/-- `add_air_quality_to_snapshot(snapshot, air_data)` (src/main.py lines
804-839): an absent, empty or otherwise falsy `"list"` returns the snapshot
itself; otherwise the first element's `main.aqi` and `components` fill the
two air-quality slots and every other field is copied from the input, field
by field, into a fresh snapshot (the input, a frozen dataclass, is never
written). -/
def add_air_quality_to_snapshot (snapshot : WeatherSnapshot)
    (air_data : List (String × PyVal)) : Except PyErr WeatherSnapshot :=
  let air_list := dictGetD air_data "list" (.vlist [])
  if pyTruthy air_list = false then .ok snapshot
  else
    match air_list with
    | .vlist (air_info :: _) => do
        let mainB ← pyGet air_info "main" (.vdict [])
        let aqiV ← pyGet mainB "aqi" .vnull
        let aqi ← storedOptInt (some aqiV)
        let compV ← pyGet air_info "components" (.vdict [])
        let components ← numDict compV
        Except.ok
          { city := snapshot.city
            country := snapshot.country
            description := snapshot.description
            temperature := snapshot.temperature
            feels_like := snapshot.feels_like
            pressure := snapshot.pressure
            humidity := snapshot.humidity
            wind_speed := snapshot.wind_speed
            wind_direction := snapshot.wind_direction
            cloudiness := snapshot.cloudiness
            temperature_min := snapshot.temperature_min
            temperature_max := snapshot.temperature_max
            visibility := snapshot.visibility
            sunrise := snapshot.sunrise
            sunset := snapshot.sunset
            tz := snapshot.tz
            units := snapshot.units
            uv_index := snapshot.uv_index
            air_quality_index := aqi
            air_quality_components := some components
            weather_alerts := snapshot.weather_alerts }
    | _ => .error .typeError

/-- `add_uv_and_alerts_to_snapshot(snapshot, onecall_data)` (src/main.py
lines 842-872): `uv_index` is read from `current.uvi` (absent field or
`None` stays absent), and `weather_alerts` is the `"alerts"` list when that
list is non-empty, `None` (absent) otherwise — `alerts if alerts else None`.
Every other field is copied from the input into a fresh snapshot.  A truthy
non-list `"alerts"` value is modelled at the field's declared list type. -/
def add_uv_and_alerts_to_snapshot (snapshot : WeatherSnapshot)
    (onecall_data : List (String × PyVal)) : Except PyErr WeatherSnapshot := do
  let current := dictGetD onecall_data "current" (.vdict [])
  let uvV ← pyGet current "uvi" .vnull
  let uv_index ← storedOptFloat (some uvV)
  let alerts := dictGetD onecall_data "alerts" (.vlist [])
  let weather_alerts ← (if pyTruthy alerts = false then pure (none : Option (List PyVal))
    else
      match alerts with
      | .vlist xs => pure (some xs)
      | _ => Except.error PyErr.typeError)
  Except.ok
    { city := snapshot.city
      country := snapshot.country
      description := snapshot.description
      temperature := snapshot.temperature
      feels_like := snapshot.feels_like
      pressure := snapshot.pressure
      humidity := snapshot.humidity
      wind_speed := snapshot.wind_speed
      wind_direction := snapshot.wind_direction
      cloudiness := snapshot.cloudiness
      temperature_min := snapshot.temperature_min
      temperature_max := snapshot.temperature_max
      visibility := snapshot.visibility
      sunrise := snapshot.sunrise
      sunset := snapshot.sunset
      tz := snapshot.tz
      units := snapshot.units
      uv_index := uv_index
      air_quality_index := snapshot.air_quality_index
      air_quality_components := snapshot.air_quality_components
      weather_alerts := weather_alerts }

/-- One iteration of the loop of `parse_forecast_payload` (src/main.py lines
882-901).  `item["dt"]` is a bare subscript: a missing `"dt"` key raises a
plain `KeyError`, unlike every other numeric leaf, which defaults to 0
through `.get(...)`. -/
def parse_forecast_item (tzOffset : Int) (item : PyVal) : Except PyErr ForecastItem := do
  let itemD ← (match asDict item with
    | some d => pure d
    | none => Except.error PyErr.typeError)
  let dtV ← (match dictFind itemD "dt" with
    | none => Except.error (PyErr.keyError "dt")
    | some v => pure v)
  let dt ← intOfVal dtV
  let mainB := dictGetD itemD "main" (.vdict [])
  let weatherV := dictGetD itemD "weather" (.vlist [])
  let descV ← (if pyTruthy weatherV then
      match weatherV with
      | .vlist (w :: _) => pyGet w "description" (.vstr "")
      | _ => Except.error PyErr.typeError
    else pure (PyVal.vstr ""))
  let description ← format_description_val descV
  let temperature ← (pyGet mainB "temp" (.vfloat 0)) >>= numOfVal
  let feels_like ← (pyGet mainB "feels_like" (.vfloat 0)) >>= numOfVal
  let humidity ← (pyGet mainB "humidity" (.vint 0)) >>= intOfVal
  let wind_speed ← (pyGet (dictGetD itemD "wind" (.vdict [])) "speed" (.vfloat 0)) >>= numOfVal
  let cloudiness ← (pyGet (dictGetD itemD "clouds" (.vdict [])) "all" (.vint 0)) >>= intOfVal
  let pop ← numOfVal (dictGetD itemD "pop" (.vfloat 0))
  let rainV ← pyGet (dictGetD itemD "rain" (.vdict [])) "3h" .vnull
  let rain_volume ← storedOptFloat (some rainV)
  let snowV ← pyGet (dictGetD itemD "snow" (.vdict [])) "3h" .vnull
  let snow_volume ← storedOptFloat (some snowV)
  Except.ok
    { timestamp := ⟨dt, tzOffset⟩
      temperature := temperature
      feels_like := feels_like
      description := description
      humidity := humidity
      wind_speed := wind_speed
      cloudiness := cloudiness
      precipitation_probability := pop * 100
      rain_volume := rain_volume
      snow_volume := snow_volume }

/-- The `for item in forecast_list` loop of `parse_forecast_payload`
(src/main.py lines 882-901), appending parsed items in order; the first
exception aborts the whole call, so no partial item list escapes. -/
def parse_forecast_list (tzOffset : Int) : List PyVal → Except PyErr (List ForecastItem)
  | [] => .ok []
  | item :: rest => do
      let it ← parse_forecast_item tzOffset item
      let more ← parse_forecast_list tzOffset rest
      .ok (it :: more)

/-- `parse_forecast_payload(payload, tz, units)` (src/main.py lines
875-903): the `"list"` field (absent defaults to `[]`) is traversed in
order.  A non-list `"list"` value is modelled as the `TypeError` the loop
body raises on its elements. -/
def parse_forecast_payload (payload : List (String × PyVal)) (tzOffset : Int)
    (units : String) : Except PyErr (List ForecastItem) :=
  match dictGetD payload "list" (.vlist []) with
  | .vlist xs => parse_forecast_list tzOffset xs
  | _ => .error .typeError

/-- The colorama foreground styles the tables attach to labels. -/
inductive Color where
  | green | lightgreen | yellow | lightyellow | lightred | red | white
deriving DecidableEq, Repr

/-- `UV_LABELS` (src/main.py lines 66-72): `(lower, upper, label, color)`
rows; the `none` upper bound models `float('inf')`, against which every
value compares `≤`. -/
def UV_LABELS : List (ℚ × Option ℚ × String × Color) :=
  [(0, some 2, "Низкий", .green),
   (3, some 5, "Умеренный", .yellow),
   (6, some 7, "Высокий", .lightyellow),
   (8, some 10, "Очень высокий", .lightred),
   (11, none, "Экстремальный", .red)]

/-- `min_val <= uv <= max_val` for one `UV_LABELS` row. -/
def uvInBand (uv : ℚ) (lo : ℚ) (hi : Option ℚ) : Prop :=
  lo ≤ uv ∧ match hi with
            | some h => uv ≤ h
            | none => True

instance (uv lo : ℚ) (hi : Option ℚ) : Decidable (uvInBand uv lo hi) := by
  unfold uvInBand
  match hi with
  | some h => exact instDecidableAnd
  | none => exact instDecidableAnd

/-- The scan of `get_uv_label`'s loop over a row list. -/
def uvLookup (uv : ℚ) : List (ℚ × Option ℚ × String × Color) → String × Color
  | [] => ("Неизвестно", Color.white)
  | (lo, hi, label, color) :: rest =>
      if uvInBand uv lo hi then (label, color) else uvLookup uv rest

/-- `get_uv_label(uv)` (src/main.py lines 998-1003): first matching
`UV_LABELS` band, `("Неизвестно", white)` when none matches. -/
def get_uv_label (uv : ℚ) : String × Color :=
  uvLookup uv UV_LABELS

/-- The 16-entry compass rose of `_format_wind_direction` (lines 768-771),
in source order. -/
def wind_rose : List String :=
  ["С", "ССВ", "СВ", "ВСВ", "В", "ВЮВ", "ЮВ", "ЮЮВ",
   "Ю", "ЮЮЗ", "ЮЗ", "ЗЮЗ", "З", "ЗСЗ", "СЗ", "ССЗ"]

/-- The index `int((degrees % 360) / 22.5 + 0.5) % len(directions)` of
`_format_wind_direction` (line 772).  `degrees % 360` is non-negative
(Python's `%`, like `Int.emod`, is floor-mod for a positive modulus), so the
`int()` truncation is a floor; the quotient's distance to the nearest
integer is at least 1/45, far beyond binary64 error, so the exact rational
floor is the float one. -/
def wind_rose_index (degrees : Int) : Nat :=
  (⌊((degrees % 360 : Int) : ℚ) / (45 / 2) + 1 / 2⌋ % 16).toNat

/-- `_format_wind_direction(degrees)` (src/main.py lines 765-773). -/
def format_wind_direction (degrees : Int) : String :=
  (wind_rose.getD (wind_rose_index degrees) "")

/-- `create_humidity_bar(humidity, width)` (src/main.py lines 1054-1058):
`filled = int((humidity / 100) * width)` filled blocks then `width - filled`
empty ones, bracketed and suffixed with the percentage.  For `humidity` in
0..100 and the widths the program uses (25 and 30) the binary64 value of
`(humidity / 100) * width` truncates to the same integer as the exact
rational, so the exact model is used.  A negative repeat count yields the
empty string, as in Python. -/
def create_humidity_bar (humidity : Int) (width : Int := 30) : String :=
  let filled : Int := ratTrunc ((humidity : ℚ) / 100 * (width : ℚ))
  let bar := String.join (List.replicate filled.toNat "█") ++
    String.join (List.replicate (width - filled).toNat "░")
  "[" ++ bar ++ "] " ++ toString humidity ++ "%"

/-- The humidity bar `format_weather` places in the current-conditions
report (src/main.py line 658): `create_humidity_bar(snapshot.humidity,
width=25)` — the call overrides the default width of 30. -/
def format_weather_humidity_bar (humidity : Int) : String :=
  create_humidity_bar humidity 25

/-- Python `max(iterable, key=f)` on a non-empty list: the running best is
replaced only when a later element's key is strictly greater, so the first
element attaining the maximal key in iteration order is returned. -/
def pyMaxBy (key : String → Nat) : List String → Option String
  | [] => none
  | x :: xs => some (xs.foldl (fun best y => if key y > key best then y else best) x)

/-- The day's descriptions in item order (line 940). -/
def day_descriptions (day_items : List ForecastItem) : List String :=
  day_items.map (fun item => item.description)

/-- `main_desc = max(set(descriptions), key=descriptions.count)` (src/main.py
line 941).  CPython iterates `set(descriptions)` in an order determined by
string hashes (randomized per process), not first-encounter order; the
enumeration the interpreter happens to produce is therefore a parameter,
constrained by `isSetEnum` to list the distinct descriptions exactly once. -/
def main_desc (descriptions : List String) (setOrder : List String) : Option String :=
  pyMaxBy (fun d => descriptions.count d) setOrder

/-- `setOrder` is a possible iteration order of `set(descriptions)`: no
repeats, and exactly the members of `descriptions`. -/
def isSetEnum (descriptions setOrder : List String) : Prop :=
  setOrder.Nodup ∧ (∀ d ∈ setOrder, d ∈ descriptions) ∧ ∀ d ∈ descriptions, d ∈ setOrder

instance (descriptions setOrder : List String) :
    Decidable (isSetEnum descriptions setOrder) := by
  unfold isSetEnum
  exact instDecidableAnd

/-- Distinct elements in first-encounter order: the enumeration "stable
mode" tie-breaking would require (this definition follows the spec's words,
for comparison with the code's set-driven one). -/
def firstSeenDedup (seen : List String) : List String → List String
  | [] => []
  | x :: xs =>
      if x ∈ seen then firstSeenDedup seen xs
      else x :: firstSeenDedup (x :: seen) xs

/-- The day description "stable mode" would choose: most frequent, ties
broken by first encounter in iteration order over the day's items (this
definition follows the spec's words, for comparison with `main_desc`). -/
def stable_main_desc (descriptions : List String) : Option String :=
  pyMaxBy (fun d => descriptions.count d) (firstSeenDedup [] descriptions)

/-- The chart row of one temperature sample (src/main.py lines 1021-1024):
`pos = int(normalized * 9)` then flipped to `9 - pos`; `normalized` is
non-negative, so the truncation is a floor. -/
def chart_row (min_temp temp_range t : ℚ) : Int :=
  9 - ⌊(t - min_temp) / temp_range * 9⌋

/-- Python `min` of a non-empty list (the empty default is never reached
under the chart's length guard). -/
def listMin : List ℚ → ℚ
  | [] => 0
  | x :: xs => xs.foldl min x

/-- Python `max` of a non-empty list (the empty default is never reached
under the chart's length guard). -/
def listMax : List ℚ → ℚ
  | [] => 0
  | x :: xs => xs.foldl max x

/-- The row each plotted sample of `create_temperature_chart` lands in
(src/main.py lines 1006-1024): fewer than two items yield no chart; else
the first 8 temperatures are scaled between their min and max (range 1 when
they coincide) onto rows 9 (min) up to 0 (max). -/
def chart_rows (items : List ForecastItem) : List Int :=
  if items.length < 2 then []
  else
    let temps := (items.take 8).map (fun item => item.temperature)
    let min_temp := listMin temps
    let max_temp := listMax temps
    let temp_range := if max_temp ≠ min_temp then max_temp - min_temp else 1
    temps.map (chart_row min_temp temp_range)

/-- C4: the optional coercers map a null input to "absent" and fail with the
`InvalidValue` error on any present non-coercible input — absent is fine,
malformed is fatal, and a non-null input is never reported absent.  The
closing equations exercise the failing branch on a concrete malformed leaf. -/
theorem optional_coercions_absent_vs_invalid :
    (optional_int PyVal.vnull = .ok none ∧ optional_float PyVal.vnull = .ok none) ∧
    (∀ v : PyVal, v ≠ PyVal.vnull → pyToInt v = none →
        optional_int v = .error (.weatherError .invalidValue)) ∧
    (∀ v : PyVal, v ≠ PyVal.vnull → pyToFloat v = none →
        optional_float v = .error (.weatherError .invalidValue)) ∧
    (∀ v : PyVal, optional_int v = .ok none → v = PyVal.vnull) ∧
    (∀ v : PyVal, optional_float v = .ok none → v = PyVal.vnull) ∧
    optional_int (PyVal.vstr "n/a") = .error (.weatherError .invalidValue) ∧
    optional_float (PyVal.vstr "n/a") = .error (.weatherError .invalidValue) := by
  refine ⟨⟨rfl, rfl⟩, ?_, ?_, ?_, ?_, rfl, rfl⟩
  · intro v hv hc
    cases v <;> simp_all [optional_int, pyToInt]
  · intro v hv hc
    cases v <;> simp_all [optional_float, pyToFloat]
  · intro v h
    cases v <;> simp_all [optional_int, pyToInt]
    case vstr s => cases hps : pyParseInt s <;> simp_all
  · intro v h
    cases v <;> simp_all [optional_float, pyToFloat]
    case vstr s => cases hps : pyParseFloat s <;> simp_all

/-- C5: a current-weather payload whose top-level "main" or "sys" sub-object
is absent makes `parse_weather_payload` fail with the structural
`WeatherError` (the `MalformedResponse` case); the `Except` result carries
no snapshot, partial or otherwise.  The closing equation shows it on a
payload that lacks both. -/
theorem parse_weather_missing_main_or_sys :
    (∀ (payload : List (String × PyVal)) (fallback_city units : String),
      dictFind payload "main" = none ∨ dictFind payload "sys" = none →
      parse_weather_payload payload fallback_city units =
        .error (.weatherError .malformedResponse)) ∧
    parse_weather_payload [("weather", PyVal.vlist [])] "Сочи" "metric" =
      .error (.weatherError .malformedResponse) := by
  constructor
  · intro payload fb units h
    rcases h with h | h
    · unfold parse_weather_payload
      rw [h]
    · cases hm : dictFind payload "main" with
      | none => unfold parse_weather_payload; rw [hm]
      | some m => unfold parse_weather_payload; rw [hm, h]
  · rfl

/-- C10: a forecast-list entry without the "dt" key makes
`parse_forecast_payload` fail with a plain `KeyError`, which is none of the
program's `WeatherError` cases; with "dt" present, every other per-entry
numeric field defaults to 0 rather than being required. -/
theorem forecast_missing_dt_raises_keyerror :
    parse_forecast_payload [("list", PyVal.vlist [PyVal.vdict []])] 0 "metric" =
      .error (.keyError "dt") ∧
    (∀ e : WError, (Except.error (PyErr.keyError "dt") : Except PyErr (List ForecastItem)) ≠
      .error (.weatherError e)) ∧
    parse_forecast_payload [("list", PyVal.vlist [PyVal.vdict [("dt", PyVal.vint 0)]])] 3600 "metric" =
      .ok [{ timestamp := ⟨0, 3600⟩, temperature := 0, feels_like := 0,
             description := "Нет данных", humidity := 0, wind_speed := 0,
             cloudiness := 0, precipitation_probability := 0 }] := by
  refine ⟨rfl, ?_, ?_⟩
  · intro e h
    simp at h
  · simp +decide [parse_forecast_payload, parse_forecast_list, parse_forecast_item, dictGetD,
        dictFind, asDict, intOfVal, pyGet, numOfVal, storedOptInt, storedOptFloat,
        pyTruthy, format_description_val, bind, Except.bind, pure, Except.pure,
        Option.getD, if_true, if_false]

/-- On a non-negative argument Python's `int()` truncation is the floor. -/
theorem ratTrunc_of_nonneg (q : ℚ) (h : 0 ≤ q) : ratTrunc q = ⌊q⌋ := by
  rw [ratTrunc, if_pos h]

/-- C3 counterexample: at humidity 50 the current-conditions report's bar
(width 25, from the call at line 658) has 12 filled and 13 unfilled cells,
not the 15 + 15 cells the claimed default width 30 would give; the 15 + 15
rendering belongs to `create_humidity_bar`'s default, which the report does
not use. -/
theorem humidity_bar_report_width_counterexample :
    format_weather_humidity_bar 50 = "[████████████░░░░░░░░░░░░░] 50%" ∧
    format_weather_humidity_bar 50 ≠ create_humidity_bar 50 ∧
    create_humidity_bar 50 = "[███████████████░░░░░░░░░░░░░░░] 50%" := by
  have h25 : ratTrunc (((50 : Int) : ℚ) / 100 * ((25 : Int) : ℚ)) = 12 := by
    rw [ratTrunc_of_nonneg _ (by norm_num)]
    norm_num
  have h30 : ratTrunc (((50 : Int) : ℚ) / 100 * ((30 : Int) : ℚ)) = 15 := by
    rw [ratTrunc_of_nonneg _ (by norm_num)]
    norm_num
  refine ⟨?_, ?_, ?_⟩
  · simp only [format_weather_humidity_bar, create_humidity_bar, h25]
    decide
  · simp only [format_weather_humidity_bar, create_humidity_bar, h25, h30]
    decide
  · simp only [create_humidity_bar, h30]
    decide

/-- C3 (amended): `create_humidity_bar`'s own default width is 30, at which
humidity 0 / 50 / 100 render 30 unfilled, 15 + 15, and 30 filled cells; the
current-conditions report, however, calls it with width 25, so the report's
bar has 25 cells — 25 unfilled, 12 filled + 13 unfilled, 25 filled
respectively. -/
theorem humidity_bar_default_30_report_25 :
    (∀ h : Int, format_weather_humidity_bar h = create_humidity_bar h 25) ∧
    create_humidity_bar 0 = "[░░░░░░░░░░░░░░░░░░░░░░░░░░░░░░] 0%" ∧
    create_humidity_bar 100 = "[██████████████████████████████] 100%" ∧
    create_humidity_bar 50 = "[███████████████░░░░░░░░░░░░░░░] 50%" ∧
    format_weather_humidity_bar 0 = "[░░░░░░░░░░░░░░░░░░░░░░░░░] 0%" ∧
    format_weather_humidity_bar 100 = "[█████████████████████████] 100%" ∧
    format_weather_humidity_bar 50 = "[████████████░░░░░░░░░░░░░] 50%" := by
  have t1 : ratTrunc (((0 : Int) : ℚ) / 100 * ((30 : Int) : ℚ)) = 0 := by
    rw [ratTrunc_of_nonneg _ (by norm_num)]; norm_num
  have t2 : ratTrunc (((100 : Int) : ℚ) / 100 * ((30 : Int) : ℚ)) = 30 := by
    rw [ratTrunc_of_nonneg _ (by norm_num)]; norm_num
  have t3 : ratTrunc (((50 : Int) : ℚ) / 100 * ((30 : Int) : ℚ)) = 15 := by
    rw [ratTrunc_of_nonneg _ (by norm_num)]; norm_num
  have t4 : ratTrunc (((0 : Int) : ℚ) / 100 * ((25 : Int) : ℚ)) = 0 := by
    rw [ratTrunc_of_nonneg _ (by norm_num)]; norm_num
  have t5 : ratTrunc (((100 : Int) : ℚ) / 100 * ((25 : Int) : ℚ)) = 25 := by
    rw [ratTrunc_of_nonneg _ (by norm_num)]; norm_num
  have t6 : ratTrunc (((50 : Int) : ℚ) / 100 * ((25 : Int) : ℚ)) = 12 := by
    rw [ratTrunc_of_nonneg _ (by norm_num)]; norm_num
  refine ⟨fun h => rfl, ?_, ?_, ?_, ?_, ?_, ?_⟩
  · simp only [create_humidity_bar, t1]; decide
  · simp only [create_humidity_bar, t2]; decide
  · simp only [create_humidity_bar, t3]; decide
  · simp only [format_weather_humidity_bar, create_humidity_bar, t4]; decide
  · simp only [format_weather_humidity_bar, create_humidity_bar, t5]; decide
  · simp only [format_weather_humidity_bar, create_humidity_bar, t6]; decide

/-- C8: the 16-point compass classifier returns the rose entry at index
`round(degrees / 22.5) mod 16` with `.5` rounded upward (`floor(x + 0.5)`):
reducing the degrees modulo 360 before dividing, as the code does, changes
the floor by a multiple of 16 and therefore not the index.  Degree 0 maps
to "С", degree 180 to "Ю", and degree 360 to the same label as degree 0. -/
theorem wind_compass_rose_index :
    (∀ d : Int, format_wind_direction d =
      wind_rose.getD (⌊(d : ℚ) / (45 / 2) + 1 / 2⌋ % 16).toNat "") ∧
    format_wind_direction 0 = "С" ∧
    format_wind_direction 180 = "Ю" ∧
    format_wind_direction 360 = format_wind_direction 0 := by
  have hgen : ∀ d : Int, format_wind_direction d =
      wind_rose.getD (⌊(d : ℚ) / (45 / 2) + 1 / 2⌋ % 16).toNat "" := by
    intro d
    unfold format_wind_direction wind_rose_index
    congr 2
    have hmod : d % 360 = d - 360 * (d / 360) := Int.emod_def d 360
    have key : ⌊((d % 360 : Int) : ℚ) / (45 / 2) + 1 / 2⌋
        = ⌊(d : ℚ) / (45 / 2) + 1 / 2⌋ + 16 * -(d / 360) := by
      rw [hmod]
      have hc : ((d - 360 * (d / 360) : Int) : ℚ) / (45 / 2) + 1 / 2
          = ((d : ℚ) / (45 / 2) + 1 / 2) + ((16 * -(d / 360) : Int) : ℚ) := by
        push_cast
        ring
      rw [hc, Int.floor_add_int]
    rw [key, Int.add_mul_emod_self_left]
  have h0 : format_wind_direction 0 = "С" := by
    norm_num [format_wind_direction, wind_rose_index, wind_rose]
  have h180 : format_wind_direction 180 = "Ю" := by
    norm_num [format_wind_direction, wind_rose_index, wind_rose]
    decide
  have h360 : format_wind_direction 360 = "С" := by
    norm_num [format_wind_direction, wind_rose_index, wind_rose]
  exact ⟨hgen, h0, h180, h360.trans h0.symm⟩


/-- A bounded `UV_LABELS` band membership is the two inequalities. -/
theorem uvInBand_some_iff (uv lo h : ℚ) : uvInBand uv lo (some h) ↔ lo ≤ uv ∧ uv ≤ h :=
  Iff.rfl

/-- The last band's `float('inf')` upper bound is no constraint. -/
theorem uvInBand_none_iff (uv lo : ℚ) : uvInBand uv lo none ↔ lo ≤ uv := by
  unfold uvInBand
  simp

/-- C2 counterexample: the UV value 2.5 is non-negative yet lies in none of
the five `UV_LABELS` ranges — they have gaps between 2 and 3, 5 and 6, 7 and
8, 10 and 11 — so `get_uv_label` returns the "unknown" label for it,
refuting "every non-negative UV index value falls inside one of the five
inclusive severity ranges". -/
theorem uv_gap_counterexample :
    (0 : ℚ) ≤ 5 / 2 ∧
    (∀ row ∈ UV_LABELS, ¬ uvInBand (5 / 2) row.1 row.2.1) ∧
    get_uv_label (5 / 2) = ("Неизвестно", Color.white) := by
  refine ⟨by norm_num, ?_, ?_⟩
  · intro row hrow
    simp only [UV_LABELS, List.mem_cons, List.not_mem_nil, or_false] at hrow
    rcases hrow with rfl | rfl | rfl | rfl | rfl <;>
      simp only [uvInBand_some_iff, uvInBand_none_iff] <;> norm_num
  · norm_num [get_uv_label, UV_LABELS, uvLookup, uvInBand]

/-- On integer inputs the classifier follows the five bands in order. -/
theorem get_uv_label_nat (n : ℕ) :
    get_uv_label (n : ℚ) =
      if n ≤ 2 then ("Низкий", Color.green)
      else if n ≤ 5 then ("Умеренный", Color.yellow)
      else if n ≤ 7 then ("Высокий", Color.lightyellow)
      else if n ≤ 10 then ("Очень высокий", Color.lightred)
      else ("Экстремальный", Color.red) := by
  simp only [get_uv_label, UV_LABELS, uvLookup, uvInBand_some_iff, uvInBand_none_iff]
  split_ifs <;> first | rfl | (exfalso; norm_cast at *; omega)

/-- C2 (amended): every non-negative *integer* UV value falls inside one of
the five inclusive `UV_LABELS` ranges and `get_uv_label` returns that
range's label, never the "unknown" label; the "unknown" label is returned
exactly for values outside all five ranges — which does happen for
non-negative non-integer values in the gaps, e.g. 2.5. -/
theorem uv_bands_cover_integers :
    (∀ n : ℕ, ∃ row ∈ UV_LABELS, uvInBand (n : ℚ) row.1 row.2.1 ∧
        get_uv_label (n : ℚ) = (row.2.2.1, row.2.2.2)) ∧
    (∀ n : ℕ, (get_uv_label (n : ℚ)).1 ≠ "Неизвестно") ∧
    (∀ uv : ℚ, (get_uv_label uv).1 = "Неизвестно" ↔
        ∀ row ∈ UV_LABELS, ¬ uvInBand uv row.1 row.2.1) := by
  refine ⟨?_, ?_, ?_⟩
  · intro n
    by_cases h2 : n ≤ 2
    · refine ⟨(0, some 2, "Низкий", Color.green), by simp [UV_LABELS], ?_, ?_⟩
      · exact show uvInBand (n : ℚ) 0 (some 2) from
          (uvInBand_some_iff _ _ _).mpr ⟨by positivity, by exact_mod_cast h2⟩
      · rw [get_uv_label_nat, if_pos h2]
    · by_cases h5 : n ≤ 5
      · refine ⟨(3, some 5, "Умеренный", Color.yellow), by simp [UV_LABELS], ?_, ?_⟩
        · exact show uvInBand (n : ℚ) 3 (some 5) from
            (uvInBand_some_iff _ _ _).mpr ⟨by exact_mod_cast (by omega : 3 ≤ n), by exact_mod_cast h5⟩
        · rw [get_uv_label_nat, if_neg h2, if_pos h5]
      · by_cases h7 : n ≤ 7
        · refine ⟨(6, some 7, "Высокий", Color.lightyellow), by simp [UV_LABELS], ?_, ?_⟩
          · exact show uvInBand (n : ℚ) 6 (some 7) from
              (uvInBand_some_iff _ _ _).mpr ⟨by exact_mod_cast (by omega : 6 ≤ n), by exact_mod_cast h7⟩
          · rw [get_uv_label_nat, if_neg h2, if_neg h5, if_pos h7]
        · by_cases h10 : n ≤ 10
          · refine ⟨(8, some 10, "Очень высокий", Color.lightred), by simp [UV_LABELS], ?_, ?_⟩
            · exact show uvInBand (n : ℚ) 8 (some 10) from
                (uvInBand_some_iff _ _ _).mpr ⟨by exact_mod_cast (by omega : 8 ≤ n), by exact_mod_cast h10⟩
            · rw [get_uv_label_nat, if_neg h2, if_neg h5, if_neg h7, if_pos h10]
          · refine ⟨(11, none, "Экстремальный", Color.red), by simp [UV_LABELS], ?_, ?_⟩
            · exact show uvInBand (n : ℚ) 11 none from
                (uvInBand_none_iff _ _).mpr (by exact_mod_cast (by omega : 11 ≤ n))
            · rw [get_uv_label_nat, if_neg h2, if_neg h5, if_neg h7, if_neg h10]
  · intro n
    rw [get_uv_label_nat]
    split_ifs <;> decide
  · intro uv
    simp only [get_uv_label, UV_LABELS, uvLookup]
    split_ifs with h1 h2 h3 h4 h5
    · exact iff_of_false (by decide)
        (fun hall => (hall (0, some 2, "Низкий", Color.green) (by simp [UV_LABELS])) h1)
    · exact iff_of_false (by decide)
        (fun hall => (hall (3, some 5, "Умеренный", Color.yellow) (by simp [UV_LABELS])) h2)
    · exact iff_of_false (by decide)
        (fun hall => (hall (6, some 7, "Высокий", Color.lightyellow) (by simp [UV_LABELS])) h3)
    · exact iff_of_false (by decide)
        (fun hall => (hall (8, some 10, "Очень высокий", Color.lightred) (by simp [UV_LABELS])) h4)
    · exact iff_of_false (by decide)
        (fun hall => (hall (11, none, "Экстремальный", Color.red) (by simp [UV_LABELS])) h5)
    · refine iff_of_true rfl ?_
      intro row hrow
      simp only [UV_LABELS, List.mem_cons, List.not_mem_nil, or_false] at hrow
      rcases hrow with rfl | rfl | rfl | rfl | rfl
      · exact h1
      · exact h2
      · exact h3
      · exact h4
      · exact h5

theorem foldl_min_mem (x : ℚ) (xs : List ℚ) : xs.foldl min x ∈ x :: xs := by
  induction xs generalizing x with
  | nil => simp
  | cons y ys ih =>
    simp only [List.foldl_cons]
    rcases List.mem_cons.mp (ih (min x y)) with h1 | h2
    · rcases min_choice x y with hc | hc
      · rw [h1, hc]; exact List.mem_cons_self x (y :: ys)
      · rw [h1, hc]; exact List.mem_cons.mpr (Or.inr (List.mem_cons_self y ys))
    · exact List.mem_cons.mpr (Or.inr (List.mem_cons.mpr (Or.inr h2)))

theorem foldl_min_le (x : ℚ) (xs : List ℚ) :
    ∀ t ∈ x :: xs, xs.foldl min x ≤ t := by
  induction xs generalizing x with
  | nil => intro t ht; simp at ht; simp [ht]
  | cons y ys ih =>
    intro t ht
    simp only [List.foldl_cons]
    rcases List.mem_cons.mp ht with rfl | ht'
    · exact le_trans (ih (min t y) (min t y) (List.mem_cons_self _ _)) (min_le_left t y)
    · rcases List.mem_cons.mp ht' with rfl | ht''
      · exact le_trans (ih (min x t) (min x t) (List.mem_cons_self _ _)) (min_le_right x t)
      · exact ih (min x y) t (List.mem_cons.mpr (Or.inr ht''))

theorem foldl_max_mem (x : ℚ) (xs : List ℚ) : xs.foldl max x ∈ x :: xs := by
  induction xs generalizing x with
  | nil => simp
  | cons y ys ih =>
    simp only [List.foldl_cons]
    rcases List.mem_cons.mp (ih (max x y)) with h1 | h2
    · rcases max_choice x y with hc | hc
      · rw [h1, hc]; exact List.mem_cons_self x (y :: ys)
      · rw [h1, hc]; exact List.mem_cons.mpr (Or.inr (List.mem_cons_self y ys))
    · exact List.mem_cons.mpr (Or.inr (List.mem_cons.mpr (Or.inr h2)))

theorem foldl_max_ge (x : ℚ) (xs : List ℚ) :
    ∀ t ∈ x :: xs, t ≤ xs.foldl max x := by
  induction xs generalizing x with
  | nil => intro t ht; simp at ht; simp [ht]
  | cons y ys ih =>
    intro t ht
    simp only [List.foldl_cons]
    rcases List.mem_cons.mp ht with rfl | ht'
    · exact le_trans (le_max_left t y) (ih (max t y) (max t y) (List.mem_cons_self _ _))
    · rcases List.mem_cons.mp ht' with rfl | ht''
      · exact le_trans (le_max_right x t) (ih (max x t) (max x t) (List.mem_cons_self _ _))
      · exact ih (max x y) t (List.mem_cons.mpr (Or.inr ht''))

theorem listMin_mem (x : ℚ) (xs : List ℚ) : listMin (x :: xs) ∈ x :: xs :=
  foldl_min_mem x xs

theorem listMin_le (x : ℚ) (xs : List ℚ) : ∀ t ∈ x :: xs, listMin (x :: xs) ≤ t :=
  foldl_min_le x xs

theorem listMax_mem (x : ℚ) (xs : List ℚ) : listMax (x :: xs) ∈ x :: xs :=
  foldl_max_mem x xs

theorem le_listMax (x : ℚ) (xs : List ℚ) : ∀ t ∈ x :: xs, t ≤ listMax (x :: xs) :=
  foldl_max_ge x xs

/-- A bare forecast item carrying the temperature and description the
formatter claims are about; the other fields play no part. -/
def mkItem (t : ℚ) (desc : String) : ForecastItem :=
  { timestamp := ⟨0, 0⟩, temperature := t, feels_like := t, description := desc,
    humidity := 0, wind_speed := 0, cloudiness := 0, precipitation_probability := 0 }

/-- C9: with at least two forecast items, each of the first 8 temperatures t
is plotted in row `9 - ⌊(t - min) / range * 9⌋`, where min and max are
genuinely the least and greatest of those temperatures (both attained) and
range is max - min, taken as 1 when they coincide; for temperatures
[10, 20, 10, 20] the rows are [9, 0, 9, 0] — the 20s in row 0, the 10s in
row 9. -/
theorem temperature_chart_rows :
    (∀ (it : ForecastItem) (rest : List ForecastItem),
      2 ≤ (it :: rest).length →
      (listMin ((it :: rest).take 8 |>.map (fun i => i.temperature)) ∈
          ((it :: rest).take 8 |>.map (fun i => i.temperature))) ∧
      (listMax ((it :: rest).take 8 |>.map (fun i => i.temperature)) ∈
          ((it :: rest).take 8 |>.map (fun i => i.temperature))) ∧
      (∀ t ∈ ((it :: rest).take 8 |>.map (fun i => i.temperature)),
        listMin ((it :: rest).take 8 |>.map (fun i => i.temperature)) ≤ t ∧
        t ≤ listMax ((it :: rest).take 8 |>.map (fun i => i.temperature))) ∧
      chart_rows (it :: rest) =
        ((it :: rest).take 8 |>.map (fun i => i.temperature)).map
          (fun t => 9 - ⌊(t - listMin ((it :: rest).take 8 |>.map (fun i => i.temperature))) /
            (if listMax ((it :: rest).take 8 |>.map (fun i => i.temperature)) ≠
                listMin ((it :: rest).take 8 |>.map (fun i => i.temperature)) then
              listMax ((it :: rest).take 8 |>.map (fun i => i.temperature)) -
                listMin ((it :: rest).take 8 |>.map (fun i => i.temperature))
            else 1) * 9⌋)) ∧
    chart_rows [mkItem 10 "", mkItem 20 "", mkItem 10 "", mkItem 20 ""] = [9, 0, 9, 0] := by
  constructor
  · intro it rest hlen
    have hshape : ((it :: rest).take 8 |>.map (fun i => i.temperature)) =
        it.temperature :: ((rest.take 7).map (fun i => i.temperature)) := by
      simp [List.take_cons]
    refine ⟨?_, ?_, ?_, ?_⟩
    · rw [hshape]; exact listMin_mem _ _
    · rw [hshape]; exact listMax_mem _ _
    · rw [hshape]; intro t ht; exact ⟨listMin_le _ _ t ht, le_listMax _ _ t ht⟩
    · rw [chart_rows, if_neg (by simp at hlen ⊢; omega)]
      rfl
  · have hmin : listMin [(10 : ℚ), 20, 10, 20] = 10 := by
      norm_num [listMin, min_def]
    have hmax : listMax [(10 : ℚ), 20, 10, 20] = 20 := by
      norm_num [listMax, max_def]
    have hrows : chart_rows [mkItem 10 "", mkItem 20 "", mkItem 10 "", mkItem 20 ""] =
        [chart_row 10 10 10, chart_row 10 10 20, chart_row 10 10 10, chart_row 10 10 20] := by
      rw [chart_rows, if_neg (by norm_num)]
      simp only [List.take, List.map, mkItem, hmin, hmax]
      norm_num
    rw [hrows]
    have h10 : chart_row 10 10 10 = 9 := by
      rw [chart_row]
      norm_num
    have h20 : chart_row 10 10 20 = 0 := by
      rw [chart_row]
      norm_num
    rw [h10, h20]

theorem pyMaxBy_foldl_mem (key : String → Nat) (x : String) (xs : List String) :
    xs.foldl (fun best y => if key y > key best then y else best) x ∈ x :: xs := by
  induction xs generalizing x with
  | nil => simp
  | cons y ys ih =>
    simp only [List.foldl_cons]
    by_cases h : key y > key x
    · rw [if_pos h]
      rcases List.mem_cons.mp (ih y) with h1 | h2
      · rw [h1]; exact List.mem_cons.mpr (Or.inr (List.mem_cons_self y ys))
      · exact List.mem_cons.mpr (Or.inr (List.mem_cons.mpr (Or.inr h2)))
    · rw [if_neg h]
      rcases List.mem_cons.mp (ih x) with h1 | h2
      · rw [h1]; exact List.mem_cons_self x (y :: ys)
      · exact List.mem_cons.mpr (Or.inr (List.mem_cons.mpr (Or.inr h2)))

theorem pyMaxBy_foldl_ge (key : String → Nat) (x : String) (xs : List String) :
    ∀ z ∈ x :: xs, key z ≤ key (xs.foldl (fun best y => if key y > key best then y else best) x) := by
  induction xs generalizing x with
  | nil => intro z hz; simp at hz; simp [hz]
  | cons y ys ih =>
    intro z hz
    simp only [List.foldl_cons]
    by_cases h : key y > key x
    · rw [if_pos h]
      rcases List.mem_cons.mp hz with rfl | hz'
      · exact le_trans (le_of_lt h) (ih y y (List.mem_cons_self _ _))
      · rcases List.mem_cons.mp hz' with rfl | hz''
        · exact ih z z (List.mem_cons_self _ _)
        · exact ih y z (List.mem_cons.mpr (Or.inr hz''))
    · rw [if_neg h]
      rcases List.mem_cons.mp hz with rfl | hz'
      · exact ih z z (List.mem_cons_self _ _)
      · rcases List.mem_cons.mp hz' with rfl | hz''
        · exact le_trans (le_of_not_lt h) (ih x x (List.mem_cons_self _ _))
        · exact ih x z (List.mem_cons.mpr (Or.inr hz''))

/-- C1 counterexample: for a day whose items carry descriptions ["a", "b"]
(a frequency tie), the enumeration ["b", "a"] is a legitimate iteration
order of `set(descriptions)` — CPython orders string sets by randomized
hashes, not first encounter — and under it `max(set(...), key=count)`
returns "b", while the stable-mode (first-encountered) choice is "a". -/
theorem daily_description_tie_counterexample :
    isSetEnum (day_descriptions [mkItem 0 "a", mkItem 0 "b"]) ["b", "a"] ∧
    main_desc (day_descriptions [mkItem 0 "a", mkItem 0 "b"]) ["b", "a"] = some "b" ∧
    stable_main_desc (day_descriptions [mkItem 0 "a", mkItem 0 "b"]) = some "a" ∧
    (some "b" : Option String) ≠ some "a" := by
  refine ⟨by decide, rfl, rfl, by decide⟩

/-- C1 (amended): the description the daily formatter reports for a day's
items is always one of maximal frequency among the day's descriptions, and
it is one of them; but when several descriptions tie for the maximum the
one returned is the first of the set's iteration order to attain it, which
is hash-dependent and not guaranteed to be the first encountered among the
items.  The closing equation shows the selection at a non-stable set order
whose frequencies are untied. -/
theorem daily_description_most_frequent :
    (∀ (day_items : List ForecastItem) (setOrder : List String) (d : String),
      isSetEnum (day_descriptions day_items) setOrder →
      main_desc (day_descriptions day_items) setOrder = some d →
      d ∈ day_descriptions day_items ∧
        ∀ d' ∈ day_descriptions day_items,
          (day_descriptions day_items).count d' ≤ (day_descriptions day_items).count d) ∧
    main_desc (day_descriptions [mkItem 0 "a", mkItem 0 "a", mkItem 0 "b"]) ["b", "a"] =
      some "a" := by
  constructor
  · intro day_items setOrder d henum hmd
    cases setOrder with
    | nil => simp [main_desc, pyMaxBy] at hmd
    | cons x xs =>
      have hd : d = xs.foldl
          (fun best y => if (day_descriptions day_items).count y >
            (day_descriptions day_items).count best then y else best) x := by
        have := hmd
        simp only [main_desc, pyMaxBy, Option.some.injEq] at this
        exact this.symm
      constructor
      · have hmem : d ∈ x :: xs := by
          rw [hd]; exact pyMaxBy_foldl_mem _ x xs
        exact henum.2.1 d hmem
      · intro d' hd'
        have hmem' : d' ∈ x :: xs := henum.2.2 d' hd'
        have := pyMaxBy_foldl_ge (fun s => (day_descriptions day_items).count s) x xs d' hmem'
        rw [hd]
        exact this
  · rfl

/-- Inversion of a successful `Except` bind. -/
theorem except_bind_ok {α β : Type} (x : Except PyErr α) (f : α → Except PyErr β) (b : β)
    (h : (x >>= f) = .ok b) : ∃ a, x = .ok a ∧ f a = .ok b := by
  cases x with
  | error e => simp [bind, Except.bind] at h
  | ok a => exact ⟨a, rfl, by simpa [bind, Except.bind] using h⟩

/-- A fixed snapshot the concrete merge equations run on. -/
def snap0 : WeatherSnapshot :=
  { city := "Сочи", country := some "RU", description := "Ясно",
    temperature := 21, feels_like := 20, pressure := 1015, humidity := 60,
    wind_speed := 3, wind_direction := some 90, cloudiness := 10,
    temperature_min := 18, temperature_max := 24, visibility := some 10000,
    sunrise := some ⟨1000, 10800⟩, sunset := some ⟨40000, 10800⟩,
    tz := 10800, units := "metric" }

/-- C7: `add_air_quality_to_snapshot` returns the input snapshot itself
when the payload's "list" is absent, empty or otherwise falsy; any snapshot
it returns agrees with the input on every field other than
`air_quality_index` and `air_quality_components` (the input value, being
consumed functionally, is never mutated).  The closing equation evaluates a
populated payload. -/
theorem merge_air_quality_frame :
    (∀ (snapshot : WeatherSnapshot) (air_data : List (String × PyVal)),
      pyTruthy (dictGetD air_data "list" (.vlist [])) = false →
      add_air_quality_to_snapshot snapshot air_data = .ok snapshot) ∧
    (∀ (snapshot : WeatherSnapshot) (air_data : List (String × PyVal)) (s' : WeatherSnapshot),
      add_air_quality_to_snapshot snapshot air_data = .ok s' →
      s'.city = snapshot.city ∧ s'.country = snapshot.country ∧
      s'.description = snapshot.description ∧ s'.temperature = snapshot.temperature ∧
      s'.feels_like = snapshot.feels_like ∧ s'.pressure = snapshot.pressure ∧
      s'.humidity = snapshot.humidity ∧ s'.wind_speed = snapshot.wind_speed ∧
      s'.wind_direction = snapshot.wind_direction ∧ s'.cloudiness = snapshot.cloudiness ∧
      s'.temperature_min = snapshot.temperature_min ∧
      s'.temperature_max = snapshot.temperature_max ∧ s'.visibility = snapshot.visibility ∧
      s'.sunrise = snapshot.sunrise ∧ s'.sunset = snapshot.sunset ∧ s'.tz = snapshot.tz ∧
      s'.units = snapshot.units ∧ s'.uv_index = snapshot.uv_index ∧
      s'.weather_alerts = snapshot.weather_alerts) ∧
    add_air_quality_to_snapshot snap0
        [("list", PyVal.vlist [PyVal.vdict
          [("main", PyVal.vdict [("aqi", PyVal.vint 3)]),
           ("components", PyVal.vdict [("pm2_5", PyVal.vfloat 5), ("pm10", PyVal.vfloat 8)])]])] =
      .ok { snap0 with
        air_quality_index := some 3
        air_quality_components := some [("pm2_5", 5), ("pm10", 8)] } := by
  refine ⟨?_, ?_, ?_⟩
  · intro snapshot air_data ht
    rw [add_air_quality_to_snapshot, if_pos ht]
  · intro snapshot air_data s' h
    simp only [add_air_quality_to_snapshot] at h
    by_cases ht : pyTruthy (dictGetD air_data "list" (PyVal.vlist [])) = false
    · rw [if_pos ht] at h
      injection h with h1
      subst h1
      exact ⟨rfl, rfl, rfl, rfl, rfl, rfl, rfl, rfl, rfl, rfl, rfl, rfl, rfl, rfl, rfl,
        rfl, rfl, rfl, rfl⟩
    · rw [if_neg ht] at h
      rcases hv : dictGetD air_data "list" (PyVal.vlist []) with _ | b | n | q | str | xs | d <;>
        rw [hv] at h <;> try simp at h
      rcases xs with _ | ⟨air_info, rest⟩
      · simp at h
      · obtain ⟨mainB, h1, h⟩ := except_bind_ok _ _ _ h
        obtain ⟨aqiV, h2, h⟩ := except_bind_ok _ _ _ h
        obtain ⟨aqi, h3, h⟩ := except_bind_ok _ _ _ h
        obtain ⟨compV, h4, h⟩ := except_bind_ok _ _ _ h
        obtain ⟨components, h5, h⟩ := except_bind_ok _ _ _ h
        injection h with h6
        subst h6
        exact ⟨rfl, rfl, rfl, rfl, rfl, rfl, rfl, rfl, rfl, rfl, rfl, rfl, rfl, rfl, rfl,
          rfl, rfl, rfl, rfl⟩
  · rfl

/-- C6: `add_uv_and_alerts_to_snapshot` leaves `weather_alerts` absent —
`None`, not an empty sequence — when the payload's "alerts" list is absent
or empty, stores the list itself when it is non-empty, and fills `uv_index`
from `current.uvi` (absent field, absent "current" block or a null value
all give an absent `uv_index`).  The closing equations evaluate a populated
and an empty payload. -/
theorem merge_onecall_uv_alerts :
    (∀ (snapshot : WeatherSnapshot) (onecall : List (String × PyVal)) (s' : WeatherSnapshot),
      add_uv_and_alerts_to_snapshot snapshot onecall = .ok s' →
      ((dictFind onecall "alerts" = none ∨ dictFind onecall "alerts" = some (.vlist [])) →
        s'.weather_alerts = none) ∧
      (∀ (a : PyVal) (xs : List PyVal), dictFind onecall "alerts" = some (.vlist (a :: xs)) →
        s'.weather_alerts = some (a :: xs)) ∧
      (dictFind onecall "current" = none → s'.uv_index = none) ∧
      (∀ c, dictFind onecall "current" = some (.vdict c) →
        ((dictFind c "uvi" = none ∨ dictFind c "uvi" = some .vnull) → s'.uv_index = none) ∧
        (∀ q : ℚ, dictFind c "uvi" = some (.vfloat q) → s'.uv_index = some q))) ∧
    add_uv_and_alerts_to_snapshot snap0
        [("current", PyVal.vdict [("uvi", PyVal.vfloat (7/2))]),
         ("alerts", PyVal.vlist [PyVal.vdict [("event", PyVal.vstr "Шторм")]])] =
      .ok { snap0 with
        uv_index := some (7/2)
        weather_alerts := some [PyVal.vdict [("event", PyVal.vstr "Шторм")]] } ∧
    add_uv_and_alerts_to_snapshot snap0 [("alerts", PyVal.vlist [])] = .ok snap0 := by
  refine ⟨?_, rfl, rfl⟩
  intro snapshot onecall s' h
  simp only [add_uv_and_alerts_to_snapshot] at h
  obtain ⟨uvV, h1, h⟩ := except_bind_ok _ _ _ h
  obtain ⟨uvI, h2, h⟩ := except_bind_ok _ _ _ h
  obtain ⟨wa, h3, h⟩ := except_bind_ok _ _ _ h
  injection h with h4
  subst h4
  refine ⟨?_, ?_, ?_, ?_⟩
  · intro hal
    show wa = none
    rcases hal with hal | hal <;>
      rw [dictGetD, hal] at h3 <;>
      · simp [pyTruthy, pure, Except.pure] at h3
        exact h3.symm
  · intro a xs hal
    show wa = some (a :: xs)
    rw [dictGetD, hal] at h3
    simp [pyTruthy, pure, Except.pure] at h3
    exact h3.symm
  · intro hcur
    show uvI = none
    rw [dictGetD, hcur] at h1
    simp only [Option.getD, pyGet, dictGetD, dictFind] at h1
    injection h1 with h1'
    subst h1'
    simp only [storedOptFloat] at h2
    injection h2 with h2'
    exact h2'.symm
  · intro c hcur
    rw [dictGetD, hcur] at h1
    simp only [Option.getD, pyGet] at h1
    injection h1 with h1'
    constructor
    · intro huvi
      show uvI = none
      rcases huvi with huvi | huvi <;>
        rw [dictGetD, huvi] at h1' <;>
        · subst h1'
          simp only [storedOptFloat] at h2
          injection h2 with h2'
          exact h2'.symm
    · intro q huvi
      show uvI = some q
      rw [dictGetD, huvi] at h1'
      subst h1'
      simp only [storedOptFloat] at h2
      injection h2 with h2'
      exact h2'.symm

end YonSe
